import Mathlib

/-!
Shallow embedding of `testofx.py` (OFX test client) in Lean 4.

Python strings are modeled as Lean `String` (a list of characters), Python
dicts as insertion-ordered association lists, Python exceptions as an
`Except` error value, and the HTTP transport as an explicit outcome
parameter.  All functions below are translated from the source file;
comments cite the corresponding source lines.
-/

namespace Testofx

/-- Python exception values raised by the code paths modeled here. -/
inductive PyError where
  | valueError (msg : String)
  | indexError (msg : String)
  | keyError (key : String)
  | nameError (msg : String)
deriving DecidableEq, Repr

/-- True exactly for `ValueError` values (used to distinguish error kinds). -/
def PyError.isValueError : PyError → Bool
  | .valueError _ => true
  | _ => false

/-! ### String helpers mirroring the Python string operations used -/

/-- Model of Python `a.startswith(pre)`. -/
def strStartsWith (s pre : String) : Bool :=
  pre.data.isPrefixOf s.data

/-- Auxiliary: does `sub` occur as a contiguous sublist of `s`? -/
def listContainsSub (sub : List Char) : List Char → Bool
  | [] => sub.isEmpty
  | c :: rest => sub.isPrefixOf (c :: rest) || listContainsSub sub rest

/-- Model of Python `s.find(sub) != -1` (substring containment). -/
def strContains (s sub : String) : Bool :=
  listContainsSub sub.data s.data

/-- Model of Python `s.replace('\r\n', '\n')`: left-to-right,
non-overlapping replacement (source line 448). -/
def replaceCRLF : List Char → List Char
  | '\r' :: '\n' :: rest => '\n' :: replaceCRLF rest
  | c :: rest => c :: replaceCRLF rest
  | [] => []

/-- Model of `OFXFile._convert_newlines` (source lines 441-448). -/
def convertNewlines (s : String) : String :=
  String.mk (replaceCRLF s.data)

/-- Auxiliary for `pySplitlines`: accumulates the current line (reversed).
Python `splitlines` yields no trailing empty line for input ending in a
line break, and treats `\r\n` as a single break. Only the `\n`, `\r\n`
and `\r` terminators are modeled; the documents handled here contain no
other line-break characters. -/
def splitlinesAux : List Char → List Char → List String
  | acc, [] => if acc.isEmpty then [] else [String.mk acc.reverse]
  | acc, '\r' :: '\n' :: rest => String.mk acc.reverse :: splitlinesAux [] rest
  | acc, '\n' :: rest => String.mk acc.reverse :: splitlinesAux [] rest
  | acc, '\r' :: rest => String.mk acc.reverse :: splitlinesAux [] rest
  | acc, c :: rest => splitlinesAux (c :: acc) rest

/-- Model of Python `s.splitlines()`. -/
def pySplitlines (s : String) : List String :=
  splitlinesAux [] s.data

/-- Auxiliary for `pySplitColon`. -/
def splitColonAux : List Char → List Char → List String
  | acc, [] => [String.mk acc.reverse]
  | acc, ':' :: rest => String.mk acc.reverse :: splitColonAux [] rest
  | acc, c :: rest => splitColonAux (c :: acc) rest

/-- Model of Python `line.split(':')` (split at every colon). -/
def pySplitColon (line : String) : List String :=
  splitColonAux [] line.data

/-! ### Python dict model (insertion-ordered association list) -/

/-- A Python `dict` with string keys and values: an association list in
insertion order; re-assigning an existing key keeps its position. -/
abbrev Dict := List (String × String)

/-- Model of `d[k] = v` on a Python dict. -/
def dictSet : Dict → String → String → Dict
  | [], k, v => [(k, v)]
  | (k0, v0) :: rest, k, v =>
    if k0 = k then (k0, v) :: rest else (k0, v0) :: dictSet rest k v

/-- Model of `d.get(k)` / `d[k]` lookup on a Python dict. -/
def dictGet : Dict → String → Option String
  | [], _ => none
  | (k0, v0) :: rest, k => if k0 = k then some v0 else dictGet rest k

/-! ### Python `str.format` for the templates of this module -/

/-- Looks up a format keyword argument.  Every `.format(...)` call in the
source supplies all placeholders of its template, so the `none` case is
unreachable in the modeled calls. -/
def envLookup (env : Dict) (name : String) : List Char :=
  match dictGet env name with
  | some v => v.data
  | none => []

/-- Model of Python `template.format(**env)` for the placeholders that
occur in this module's templates (`{version}`, `{dt}`, `{fi}`, `{fid}`,
`{org}`, `{uid}`, `{signonmsg}`).  The templates contain no other brace
characters. -/
def pyFormat (env : Dict) : List Char → List Char
  | '{' :: 'v' :: 'e' :: 'r' :: 's' :: 'i' :: 'o' :: 'n' :: '}' :: r =>
      envLookup env "version" ++ pyFormat env r
  | '{' :: 'd' :: 't' :: '}' :: r => envLookup env "dt" ++ pyFormat env r
  | '{' :: 'f' :: 'i' :: '}' :: r => envLookup env "fi" ++ pyFormat env r
  | '{' :: 'f' :: 'i' :: 'd' :: '}' :: r => envLookup env "fid" ++ pyFormat env r
  | '{' :: 'o' :: 'r' :: 'g' :: '}' :: r => envLookup env "org" ++ pyFormat env r
  | '{' :: 'u' :: 'i' :: 'd' :: '}' :: r => envLookup env "uid" ++ pyFormat env r
  | '{' :: 's' :: 'i' :: 'g' :: 'n' :: 'o' :: 'n' :: 'm' :: 's' :: 'g' :: '}' :: r =>
      envLookup env "signonmsg" ++ pyFormat env r
  | c :: r => c :: pyFormat env r
  | [] => []

/-- Model of `template.format(**env)` on `String`. -/
def pyFormatStr (env : Dict) (t : String) : String :=
  String.mk (pyFormat env t.data)

/-! ### Module-level constants (source lines 16-77) -/

def USER_AGENT : String := "InetClntApp/3.0"

def CONTENT_TYPE : String := "application/x-ofx"

def HDR_OFXHEADER : String := "OFXHEADER"
def HDR_DATA : String := "DATA"
def HDR_VERSION : String := "VERSION"
def HDR_SECURITY : String := "SECURITY"
def HDR_ENCODING : String := "ENCODING"
def HDR_CHARSET : String := "CHARSET"
def HDR_COMPRESSION : String := "COMPRESSION"
def HDR_OLDFILEUID : String := "OLDFILEUID"
def HDR_NEWFILEUID : String := "NEWFILEUID"

def HDR_FIELDS_V2 : List String :=
  [HDR_OFXHEADER, HDR_VERSION, HDR_SECURITY, HDR_OLDFILEUID, HDR_NEWFILEUID]

/-- Gen1 header template (source lines 36-46). -/
def OFX_HEADER_100 : String :=
  "OFXHEADER:100\nDATA:OFXSGML\nVERSION:{version}\nSECURITY:NONE\nENCODING:USASCII\nCHARSET:1252\nCOMPRESSION:NONE\nOLDFILEUID:NONE\nNEWFILEUID:NONE\n"

/-- Gen2 header template (source lines 48-52).  Note: in the source the
`<?OFX ...?>` processing instruction is broken across two physical lines
of the triple-quoted string, so the template contains a newline between
`OLDFILEUID="NONE"` and `NEWFILEUID="NONE"?>`. -/
def OFX_HEADER_200 : String :=
  "<?xml version=\"1.0\" encoding=\"UTF-8\" standalone=\"no\"?>\n<?OFX OFXHEADER=\"200\" VERSION=\"{version}\" SECURITY=\"NONE\" OLDFILEUID=\"NONE\"\nNEWFILEUID=\"NONE\"?>\n"

def REQ_NAME_GET_ROOT : String := "GET /"
def REQ_NAME_GET_OFX : String := "GET OFX Path"
def REQ_NAME_POST_OFX : String := "POST OFX Path"
def REQ_NAME_OFX_EMPTY : String := "OFX Empty"
def REQ_NAME_OFX_PROFILE : String := "OFX PROFILE"
def REQ_NAME_OFX_ACCTINFO : String := "OFX ACCTINFO"

def REQ_NAMES : List String :=
  [REQ_NAME_GET_ROOT, REQ_NAME_GET_OFX, REQ_NAME_POST_OFX,
   REQ_NAME_OFX_EMPTY, REQ_NAME_OFX_PROFILE, REQ_NAME_OFX_ACCTINFO]

/-- Model of `REQ_METHODS` dict (source lines 70-77). -/
def REQ_METHODS : Dict :=
  [(REQ_NAME_GET_ROOT, "GET"), (REQ_NAME_GET_OFX, "GET"),
   (REQ_NAME_POST_OFX, "POST"), (REQ_NAME_OFX_EMPTY, "POST"),
   (REQ_NAME_OFX_PROFILE, "POST"), (REQ_NAME_OFX_ACCTINFO, "POST")]

/-! ### OFXServerInstance (source lines 123-131) -/

/-- Representation of an OFX server (source class `OFXServerInstance`). -/
structure OFXServerInstance where
  ofxurl : String
  fid : String
  org : String
deriving DecidableEq, Repr

/-- Model of `OFXServerInstance.__init__`: `fid`/`org` may be `None` (modeled as
`Option.none`); falsy values are replaced by the empty string. -/
def mkOFXServerInstance (ofxurl : String) (fid org : Option String) :
    OFXServerInstance :=
  { ofxurl := ofxurl, fid := fid.getD "", org := org.getD "" }

/-! ### OFXTestClient construction (source lines 143-164) -/

/-- The fields of `OFXTestClient` relevant to the modeled behavior.
`timeout` is passed through to the HTTP library and has no modeled
effect; it is omitted. -/
structure OFXTestClient where
  wait : Int
  use_cache : Bool
  output : Bool
  version : String
  ofxheader : String
  content_type : String
deriving DecidableEq, Repr

/-- Model of `OFXTestClient.__init__` (source lines 143-164).  Python evaluates
`self.version[0]`, which raises `IndexError` on an empty string before
any comparison happens; otherwise an unknown leading character raises
`ValueError`. -/
def mkOFXTestClient (wait : Int) (use_cache output : Bool) (version : String) :
    Except PyError OFXTestClient :=
  match version.data with
  | [] => .error (.indexError "string index out of range")
  | c :: _ =>
    if c = '1' then
      .ok { wait := wait, use_cache := use_cache, output := output,
            version := version,
            ofxheader := pyFormatStr [("version", version)] OFX_HEADER_100,
            content_type := "text/sgml" }
    else if c = '2' then
      .ok { wait := wait, use_cache := use_cache, output := output,
            version := version,
            ofxheader := pyFormatStr [("version", version)] OFX_HEADER_200,
            content_type := "text/xml" }
    else
      .error (.valueError ("Unknown OFX version number " ++ version))

/-! ### Transport: `call_url_cached` (source lines 166-222) -/

/-- Outcome of the underlying `requests.get`/`requests.post` call, which
is external to the program: a response (modeled as an opaque `Nat` id),
a `requests.ConnectionError`, or a `requests.exceptions.ReadTimeout`. -/
inductive NetOutcome where
  | success (r : Nat)
  | connError
  | readTimeout
deriving DecidableEq, Repr

/-- The in-memory response cache `OFXTestClient.cache`: a Python dict
from URL to a response, or `none` for a cached connection failure
(`self.cache[url] = None`, source line 214). -/
abbrev Cache := List (String × Option Nat)

/-- Python dict lookup on the cache. -/
def cacheLookup : Cache → String → Option (Option Nat)
  | [], _ => none
  | (k0, v0) :: rest, k => if k0 = k then some v0 else cacheLookup rest k

/-- Python dict assignment on the cache. -/
def cacheSet : Cache → String → Option Nat → Cache
  | [], k, v => [(k, v)]
  | (k0, v0) :: rest, k, v =>
    if k0 = k then (k0, v) :: rest else (k0, v0) :: cacheSet rest k v

/-- The names bound in the local scope of `call_url_cached` at its
read-timeout handler (parameters and locals assigned before line 217). -/
def call_url_cached_local_names : List String :=
  ["self", "url", "tlsverify", "body", "method", "headers", "r", "ex"]

/-- The module-level names of `testofx.py` (imports, constants,
functions and classes).  None of Python's builtins is named `wait`
either, so resolution of a bare `wait` inside `call_url_cached` fails. -/
def testofx_module_names : List String :=
  ["json", "re", "requests", "time", "uuid4",
   "USER_AGENT", "CONTENT_TYPE",
   "HDR_OFXHEADER", "HDR_DATA", "HDR_VERSION", "HDR_SECURITY",
   "HDR_ENCODING", "HDR_CHARSET", "HDR_COMPRESSION", "HDR_OLDFILEUID",
   "HDR_NEWFILEUID", "HDR_FIELDS_V1", "HDR_FIELDS_V2",
   "OFX_HEADER_100", "OFX_HEADER_200",
   "REQ_NAME_GET_ROOT", "REQ_NAME_GET_OFX", "REQ_NAME_POST_OFX",
   "REQ_NAME_OFX_EMPTY", "REQ_NAME_OFX_PROFILE", "REQ_NAME_OFX_ACCTINFO",
   "REQ_NAMES", "REQ_METHODS", "_print_http_response", "dt_now", "uid",
   "is_ofx_response", "OFXServerInstance", "OFXTestClient", "OFXFile"]

/-- Python name resolution for a bare name inside `call_url_cached`:
local scope, then module globals.  An unbound name raises `NameError`. -/
def resolveName (n : String) : Except PyError Unit :=
  if (call_url_cached_local_names ++ testofx_module_names).contains n then
    .ok ()
  else
    .error (.nameError ("name '" ++ n ++ "' is not defined"))

/-- Result of one `call_url_cached` invocation: the returned pair (or the
exception that escaped), the cache state afterwards, and whether an
underlying network request was issued. -/
structure CallResult where
  out : Except PyError (Option Nat × Bool)
  cache : Cache
  networkIssued : Bool
deriving Repr

/-- Model of `OFXTestClient.call_url_cached` (source lines 166-222).  The HTTP
call itself is external and its outcome is the `net` parameter, consumed
only when the cache misses.  On a read timeout the handler (line 217)
evaluates the bare name `wait` (not `self.wait`), which is unbound. -/
def call_url_cached (c : OFXTestClient) (cache : Cache) (url : String)
    (tlsverify : Bool) (body : String) (method : String) (net : NetOutcome) :
    CallResult :=
  if method = "GET" ∨ method = "POST" then
    match cacheLookup cache url with
    | some r => { out := .ok (r, true), cache := cache, networkIssued := false }
    | none =>
      match net with
      | .success r =>
        let cache2 := if c.use_cache then cacheSet cache url (some r) else cache
        { out := .ok (some r, false), cache := cache2, networkIssued := true }
      | .connError =>
        -- "Still cache connection errors even if use_cache == False"
        { out := .ok (none, false), cache := cacheSet cache url none,
          networkIssued := true }
      | .readTimeout =>
        match resolveName "wait" with
        | .error e => { out := .error e, cache := cache, networkIssued := true }
        | .ok _ =>
          -- Would sleep `self.wait` seconds (no modeled effect) and fall
          -- through to `return (None, False)` (line 222).
          { out := .ok (none, false), cache := cache, networkIssued := true }
  else
    { out := .error (.valueError "Method must be 'GET' or 'POST'"),
      cache := cache, networkIssued := false }

/-! ### Payload builders (source lines 255-361) -/

/-- Gen1 `<FI>` fragment template (source lines 258-263). -/
def OFX_FI_FMT_V1 : String := "<FI>\n<ORG>{org}\n<FID>{fid}\n</FI>\n"

/-- Gen1 signon template (source lines 265-276). -/
def OFX_SIGNON_FMT_V1 : String :=
  "<SIGNONMSGSRQV1>\n<SONRQ>\n<DTCLIENT>{dt}\n<USERID>anonymous00000000000000000000000\n<USERPASS>anonymous00000000000000000000000\n<GENUSERKEY>N\n<LANGUAGE>ENG\n{fi}<APPID>QWIN\n<APPVER>2700\n</SONRQ>\n</SIGNONMSGSRQV1>"

/-- Gen2 `<FI>` fragment template (source lines 279-284). -/
def OFX_FI_FMT_V2 : String := "<FI>\n<ORG>{org}</ORG>\n<FID>{fid}</FID>\n</FI>\n"

/-- Gen2 signon template (source lines 286-297). -/
def OFX_SIGNON_FMT_V2 : String :=
  "<SIGNONMSGSRQV1>\n<SONRQ>\n<DTCLIENT>{dt}</DTCLIENT>\n<USERID>anonymous00000000000000000000000</USERID>\n<USERPASS>anonymous00000000000000000000000</USERPASS>\n<GENUSERKEY>N</GENUSERKEY>\n<LANGUAGE>ENG</LANGUAGE>\n{fi}<APPID>QWIN</APPID>\n<APPVER>2700</APPVER>\n</SONRQ>\n</SIGNONMSGSRQV1>"

/-- Model of `OFXTestClient._get_signonmsg_anonymous_payload` (source lines
255-311).  `dt` stands for the `dt_now()` timestamp, injected for
determinism.  If `content_type` is neither branch value, the local
names `ofx_fi_fmt`/`ofx_signon_fmt` are never bound and their first use
raises `NameError` (unreachable after a successful `__init__`). -/
def get_signonmsg_anonymous_payload (content_type : String)
    (si : Option OFXServerInstance) (dt : String) : Except PyError String :=
  let fmts : Option (String × String) :=
    if content_type = "text/sgml" then some (OFX_FI_FMT_V1, OFX_SIGNON_FMT_V1)
    else if content_type = "text/xml" then some (OFX_FI_FMT_V2, OFX_SIGNON_FMT_V2)
    else none
  match fmts with
  | none => .error (.nameError "name 'ofx_signon_fmt' is not defined")
  | some (fiFmt, signonFmt) =>
    let fi : String :=
      match si with
      | none => ""
      | some s => pyFormatStr [("fid", s.fid), ("org", s.org)] fiFmt
    .ok (pyFormatStr [("dt", dt), ("fi", fi)] signonFmt)

/-- Gen1 profile body template (source lines 327-340). -/
def OFX_PROFILE_FMT_V1 : String :=
  "<OFX>\n{signonmsg}\n<PROFMSGSRQV1>\n<PROFTRNRQ>\n<TRNUID>{uid}\n<PROFRQ>\n<CLIENTROUTING>MSGSET\n<DTPROFUP>19900101\n</PROFRQ>\n</PROFTRNRQ>\n</PROFMSGSRQV1>\n</OFX>\n"

/-- Gen2 profile body template (source lines 342-356). -/
def OFX_PROFILE_FMT_V2 : String :=
  "<OFX>\n{signonmsg}\n<PROFMSGSRQV1>\n<PROFTRNRQ>\n<TRNUID>{uid}</TRNUID>\n<PROFRQ>\n<CLIENTROUTING>MSGSET</CLIENTROUTING>\n<DTPROFUP>19900101</DTPROFUP>\n</PROFRQ>\n</PROFTRNRQ>\n</PROFMSGSRQV1>\n</OFX>\n"

/-- Model of `OFXTestClient.get_profile_payload` (source lines 324-361).  `dt` and
`uid` stand for the `dt_now()` and `uid()` values, injected for
determinism.  The final payload is `"{}{}{}".format(ofxheader, '\n',
body)`. -/
def get_profile_payload (c : OFXTestClient) (si : Option OFXServerInstance)
    (dt uidv : String) : Except PyError String :=
  let fmt : Option String :=
    if c.content_type = "text/sgml" then some OFX_PROFILE_FMT_V1
    else if c.content_type = "text/xml" then some OFX_PROFILE_FMT_V2
    else none
  match fmt with
  | none => .error (.nameError "name 'ofx_body_fmt' is not defined")
  | some bodyFmt => do
    let signonmsg ← get_signonmsg_anonymous_payload c.content_type si dt
    .ok (c.ofxheader ++ "\n" ++
         pyFormatStr [("signonmsg", signonmsg), ("uid", uidv)] bodyFmt)

/-! ### `send_req` (source lines 236-253) -/

/-- The argument tuple `send_req` passes to `call_url_cached`: the
request as dispatched to the transport boundary.  (The network call
itself is modeled separately by `call_url_cached`.) -/
structure Dispatch where
  url : String
  tlsverify : Bool
  body : String
  method : String
deriving DecidableEq, Repr

/-- Model of `OFXTestClient.send_req` (source lines 236-253), modeled up to the
transport boundary: for the one handled request name it returns the
arguments handed to `call_url_cached`; every other name raises
`ValueError('Unknown request name: ...')`. -/
def send_req (c : OFXTestClient) (req_name : String)
    (si : OFXServerInstance) (dt uidv : String) : Except PyError Dispatch :=
  if req_name = REQ_NAME_OFX_PROFILE then do
    let payload ← get_profile_payload c (some si) dt uidv
    match dictGet REQ_METHODS req_name with
    | some m => .ok { url := si.ofxurl, tlsverify := true, body := payload, method := m }
    | none => .error (.keyError req_name)
  else
    .error (.valueError ("Unknown request name: " ++ req_name))

/-! ### Header parsing: `OFXFile` (source lines 425-507) -/

/-- The Gen1 line loop of `OFXFile._parse_header` (source lines 465-472).
`hs` is `self.headers` (a class attribute, hence passed in explicitly).
Each line is ended on if empty, starting with `<OFX>`, or longer than 13
characters; otherwise `[k,v] = line.split(':')` requires the split to
have exactly two parts and raises `ValueError` otherwise. -/
def parseV1Lines (hs : Dict) : List String → Except PyError Dict
  | [] => .ok hs
  | line :: rest =>
    if line = "" ∨ strStartsWith line "<OFX>" = true ∨ line.length > 13 then
      .ok hs
    else
      match pySplitColon line with
      | [k, v] => parseV1Lines (dictSet hs k v) rest
      | [_] => .error (.valueError "not enough values to unpack (expected 2, got 1)")
      | _ => .error (.valueError "too many values to unpack (expected 2)")

/-- ASCII digit test (the `\d` class of the V2 header regex, on the
ASCII text handled here). -/
def isAsciiDigit (c : Char) : Bool := '0' ≤ c && c ≤ '9'

/-- ASCII word-character test (the `\w` class of the V2 header regex, on
the ASCII text handled here). -/
def isWordChar (c : Char) : Bool :=
  isAsciiDigit c || ('a' ≤ c && c ≤ 'z') || ('A' ≤ c && c ≤ 'Z') || c = '_'

/-- Matches a literal character sequence, returning the remaining input. -/
def expectLit : List Char → List Char → Option (List Char)
  | [], s => some s
  | _ :: _, [] => none
  | p :: ps, c :: cs => if p = c then expectLit ps cs else none

/-- Splits off the maximal run of characters satisfying `p`. -/
def takeRun (p : Char → Bool) : List Char → (List Char × List Char)
  | [] => ([], [])
  | c :: cs =>
    if p c then
      let (a, b) := takeRun p cs
      (c :: a, b)
    else
      ([], c :: cs)

/-- Attempts to match the V2 header regex (source line 492) at the start
of `s0`, returning the five named groups `OFXHEADER`, `VERSION`,
`SECURITY`, `OLDFILEUID`, `NEWFILEUID`.  Each `\d+`/`\w+` is a maximal
run: the following pattern character is always `"`, which is neither a
digit nor a word character, so greedy matching with backtracking and
maximal-run matching agree. -/
def matchV2At (s0 : List Char) :
    Option (String × String × String × String × String) := do
  let s1 ← expectLit "<?OFX OFXHEADER=\"".data s0
  let (oh, s2) := takeRun isAsciiDigit s1
  if oh.isEmpty then none else do
  let s3 ← expectLit "\" VERSION=\"".data s2
  let (ver, s4) := takeRun isAsciiDigit s3
  if ver.isEmpty then none else do
  let s5 ← expectLit "\" SECURITY=\"".data s4
  let (sec, s6) := takeRun isWordChar s5
  if sec.isEmpty then none else do
  let s7 ← expectLit "\" OLDFILEUID=\"".data s6
  let (ofu, s8) := takeRun isWordChar s7
  if ofu.isEmpty then none else do
  let s9 ← expectLit "\" NEWFILEUID=\"".data s8
  let (nfu, s10) := takeRun isWordChar s9
  if nfu.isEmpty then none else do
  let _ ← expectLit "\"?>".data s10
  pure (String.mk oh, String.mk ver, String.mk sec, String.mk ofu, String.mk nfu)

/-- Model of `re.search` with the V2 header pattern: tries every start position
from the left.  The pattern cannot match the empty string. -/
def searchV2 : List Char → Option (String × String × String × String × String)
  | [] => none
  | c :: rest =>
    match matchV2At (c :: rest) with
    | some g => some g
    | none => searchV2 rest

/-- Model of `OFXFile._parse_header` (source lines 450-507), run on the
newline-converted text.  `initHeaders` is the state of the class
attribute `OFXFile.headers` before this parse (an empty dict for the
first `OFXFile` constructed in a run).  Returns the dict and the parsed
version on success. -/
def parse_header (initHeaders : Dict) (s : String) :
    Except PyError (Dict × String) :=
  if strStartsWith s "OFXHEADER" then
    match parseV1Lines initHeaders (pySplitlines s) with
    | .error e => .error e
    | .ok hs =>
      match dictGet hs HDR_VERSION with
      | some v => .ok (hs, v)
      | none => .error (.valueError "Parse Error: No version")
  else if strContains s "<?OFX OFXHEADER" then
    match searchV2 s.data with
    | none => .error (.valueError "Parse Error: Unable to parse V2 header with regex")
    | some (oh, ver, sec, ofu, nfu) =>
      -- `for field in HDR_FIELDS_V2: self.headers[field] = match.group(field)`
      let hs := dictSet (dictSet (dictSet (dictSet (dictSet initHeaders
        HDR_OFXHEADER oh) HDR_VERSION ver) HDR_SECURITY sec)
        HDR_OLDFILEUID ofu) HDR_NEWFILEUID nfu
      match dictGet hs HDR_VERSION with
      | some v => .ok (hs, v)
      | none => .error (.valueError "Parse Error: No version")
  else
    .error (.valueError "Parse Error: Unable to parse header")

/-- Model of `OFXFile.__init__` (source lines 435-439): newline conversion
followed by header parsing.  `classHeaders` is the state of the shared
class attribute `OFXFile.headers` when the constructor runs. -/
def ofxfile_new (classHeaders : Dict) (file_str : String) :
    Except PyError (Dict × String) :=
  parse_header classHeaders (convertNewlines file_str)

/-! ### Helper lemmas and test fixtures -/

set_option maxRecDepth 80000

/-- Sample `dt_now()` timestamp (the docstring example at source line 100). -/
def dtSample : String := "20170616141327.123[-7:MST]"

/-- Sample `uid()` value (the docstring example at source line 105). -/
def uidSample : String := "C1B7C870-7CB2-1000-BD91-E1E23E560026"

/-- A client constructed with version "102" (the constructor default). -/
def clientSgml : OFXTestClient :=
  { wait := 0, use_cache := false, output := false, version := "102",
    ofxheader := pyFormatStr [("version", "102")] OFX_HEADER_100,
    content_type := "text/sgml" }

/-- The fixture is exactly what the constructor produces for "102". -/
theorem mkOFXTestClient_102 : mkOFXTestClient 0 false false "102" = .ok clientSgml := rfl

/-- Formatting the Gen1 header template substitutes the version string
between the literal pieces of the template. -/
theorem OFX_HEADER_100_format (v : String) :
    pyFormatStr [("version", v)] OFX_HEADER_100 =
    "OFXHEADER:100\nDATA:OFXSGML\nVERSION:" ++
      (v ++ "\nSECURITY:NONE\nENCODING:USASCII\nCHARSET:1252\nCOMPRESSION:NONE\nOLDFILEUID:NONE\nNEWFILEUID:NONE\n") := rfl

/-- Formatting the Gen2 header template substitutes the version string;
the template's own newline before `NEWFILEUID` is preserved. -/
theorem OFX_HEADER_200_format (v : String) :
    pyFormatStr [("version", v)] OFX_HEADER_200 =
    "<?xml version=\"1.0\" encoding=\"UTF-8\" standalone=\"no\"?>\n<?OFX OFXHEADER=\"200\" VERSION=\"" ++
      (v ++ "\" SECURITY=\"NONE\" OLDFILEUID=\"NONE\"\nNEWFILEUID=\"NONE\"?>\n") := rfl

/-- Looking up the key just set in a cache dict yields the new value. -/
theorem cacheLookup_cacheSet_self (cache : Cache) (url : String) (x : Option Nat) :
    cacheLookup (cacheSet cache url x) url = some x := by
  induction cache with
  | nil => simp [cacheSet, cacheLookup]
  | cons kv rest ih =>
    obtain ⟨k0, v0⟩ := kv
    by_cases h : k0 = url
    · simp [cacheSet, cacheLookup, h]
    · simp [cacheSet, cacheLookup, h, ih]

/-! ### Claim C1 -/

/-- C1: rendering a profile request and parsing it back recovers the
VERSION header only for generation 1.  For a Gen1 client (version
"102") the round trip recovers VERSION = "102"; for a Gen2 client
(version "203") the rendered header splits the `<?OFX ...?>` processing
instruction across two lines, the V2 regex (which requires a single
space before `NEWFILEUID`) finds no match, and parsing raises
`ValueError('Parse Error: Unable to parse V2 header with regex')`.
This contradicts the claim's "for both generations". -/
theorem C1_roundtrip_gen1_ok_gen2_raises :
    ((mkOFXTestClient 0 false false "102").bind (fun c =>
        (get_profile_payload c none dtSample uidSample).bind (fun p =>
          (ofxfile_new [] p).map (fun pr => dictGet pr.1 HDR_VERSION)))
      = .ok (some "102")) ∧
    ((mkOFXTestClient 0 false false "203").bind (fun c =>
        (get_profile_payload c none dtSample uidSample).bind (fun p =>
          ofxfile_new [] p))
      = .error (.valueError "Parse Error: Unable to parse V2 header with regex")) :=
  ⟨rfl, rfl⟩

/-! ### Claim C4 -/

/-- C4: `OFXFile.headers` is a class attribute shared by all instances,
so header mappings are not independent per document.  Parsing a first
document starts from the empty shared dict; constructing a second
`OFXFile` runs `_parse_header` against the dict already holding the
first file's fields and mutates it in place, so the mapping the first
object exposes afterwards has VERSION "103" instead of "102". -/
theorem C4_shared_headers_mutation :
    ofxfile_new [] "OFXHEADER:100\nVERSION:102\n\n<OFX>body"
      = .ok ([("OFXHEADER", "100"), ("VERSION", "102")], "102") ∧
    ofxfile_new [("OFXHEADER", "100"), ("VERSION", "102")]
        "OFXHEADER:100\nVERSION:103\n\n<OFX>body"
      = .ok ([("OFXHEADER", "100"), ("VERSION", "103")], "103") ∧
    dictGet [("OFXHEADER", "100"), ("VERSION", "103")] HDR_VERSION ≠
      dictGet [("OFXHEADER", "100"), ("VERSION", "102")] HDR_VERSION :=
  ⟨rfl, rfl, by decide⟩

/-! ### Claim C5 -/

/-- C5 counterexample: a header-region line with two colons
(`VERSION:1:0`, 11 characters) is not split at its first colon; the
unpacking `[k,v] = line.split(':')` raises
`ValueError('too many values to unpack (expected 2)')`, whereas the
claim predicts the mapping gains VERSION = "1:0" and parsing succeeds. -/
theorem C5_counterexample :
    strStartsWith "OFXHEADER:100\nVERSION:1:0\n<OFX>\n" "OFXHEADER" = true ∧
    ofxfile_new [] "OFXHEADER:100\nVERSION:1:0\n<OFX>\n"
      = .error (.valueError "too many values to unpack (expected 2)") :=
  ⟨rfl, rfl⟩

/-- C5 (amended): within the header region (a line that is nonempty,
does not start the `<OFX>` body marker, and is at most 13 characters
long), a line is split at every colon: exactly one colon yields a
field/value insertion, zero colons raise a not-enough-values
`ValueError`, and two or more colons raise a too-many-values
`ValueError`.  Scanning stops at the first empty, `<OFX>`-starting or
over-long line. -/
theorem C5_v1_line_step (hs : Dict) (line : String) (rest : List String)
    (h1 : line ≠ "") (h2 : strStartsWith line "<OFX>" = false)
    (h3 : line.length ≤ 13) :
    (∀ k v, pySplitColon line = [k, v] →
       parseV1Lines hs (line :: rest) = parseV1Lines (dictSet hs k v) rest) ∧
    (∀ k, pySplitColon line = [k] →
       parseV1Lines hs (line :: rest) =
         .error (.valueError "not enough values to unpack (expected 2, got 1)")) ∧
    (∀ a b c' t, pySplitColon line = a :: b :: c' :: t →
       parseV1Lines hs (line :: rest) =
         .error (.valueError "too many values to unpack (expected 2)")) := by
  have hcond : ¬(line = "" ∨ strStartsWith line "<OFX>" = true ∨ line.length > 13) := by
    rintro (h | h | h)
    · exact h1 h
    · rw [h2] at h; exact Bool.false_ne_true h
    · omega
  refine ⟨?_, ?_, ?_⟩
  · intro k v hsplit
    simp only [parseV1Lines, if_neg hcond, hsplit]
  · intro k hsplit
    simp only [parseV1Lines, if_neg hcond, hsplit]
  · intro a b c' t hsplit
    simp only [parseV1Lines, if_neg hcond, hsplit]

/-- C5 witness: the amended step theorem applied to the concrete line
`VERSION:102`. -/
theorem C5_v1_line_step_witness :
    parseV1Lines [] ["VERSION:102"] = parseV1Lines (dictSet [] "VERSION" "102") [] :=
  (C5_v1_line_step [] "VERSION:102" [] (by decide) (by decide) (by decide)).1
    "VERSION" "102" rfl

/-! ### Claim C9 -/

/-- C9 counterexample: constructing with the empty version string does
not fail with the "unsupported protocol generation" `ValueError`; the
subscript `self.version[0]` raises `IndexError` first. -/
theorem C9_counterexample :
    mkOFXTestClient 0 false false "" = .error (.indexError "string index out of range") ∧
    (match mkOFXTestClient 0 false false "" with
     | .error e => e.isValueError
     | .ok _ => true) = false :=
  ⟨rfl, rfl⟩

/-- C9 (amended): a nonempty version string whose first character is
neither '1' nor '2' fails with `ValueError('Unknown OFX version number
...')`; the empty version string instead fails with `IndexError` raised
by `self.version[0]`.  Either way no client (and hence no header or
document) is produced. -/
theorem C9_unsupported_version (version : String) (w : Int) (u o : Bool) :
    (version = "" →
      mkOFXTestClient w u o version = .error (.indexError "string index out of range")) ∧
    (∀ c rest, version.data = c :: rest → c ≠ '1' → c ≠ '2' →
      mkOFXTestClient w u o version =
        .error (.valueError ("Unknown OFX version number " ++ version))) := by
  constructor
  · rintro rfl
    rfl
  · intro c rest h hc1 hc2
    simp [mkOFXTestClient, h, hc1, hc2]

/-- C9 witness: the amended theorem applied to "" and to "999". -/
theorem C9_unsupported_version_witness :
    mkOFXTestClient 0 false false "" = .error (.indexError "string index out of range") ∧
    mkOFXTestClient 0 false false "999" =
      .error (.valueError ("Unknown OFX version number " ++ "999")) :=
  ⟨(C9_unsupported_version "" 0 false false).1 rfl,
   (C9_unsupported_version "999" 0 false false).2 '9' ['9', '9'] rfl
     (by decide) (by decide)⟩

/-! ### Claim C10 -/

/-- C10: parsing a profile request rendered by a client with the default
version "102" stops scanning at the `ENCODING:USASCII` line (16 > 13
characters), so the recovered mapping holds exactly OFXHEADER, DATA,
VERSION and SECURITY, although the rendered header itself carries all
nine Gen1 fields. -/
theorem C10_default_gen1_parse (si : Option OFXServerInstance) (dt uidv : String) :
    ((mkOFXTestClient 0 false false "102").bind (fun c =>
        (get_profile_payload c si dt uidv).bind (fun p => ofxfile_new [] p))
      = .ok ([("OFXHEADER", "100"), ("DATA", "OFXSGML"), ("VERSION", "102"),
              ("SECURITY", "NONE")], "102")) ∧
    (pySplitlines clientSgml.ofxheader =
      ["OFXHEADER:100", "DATA:OFXSGML", "VERSION:102", "SECURITY:NONE",
       "ENCODING:USASCII", "CHARSET:1252", "COMPRESSION:NONE",
       "OLDFILEUID:NONE", "NEWFILEUID:NONE"]) :=
  ⟨rfl, rfl⟩

/-! ### Claim C2 -/

/-- C2 counterexample: `OFX ACCTINFO` is in the supported `REQ_NAMES`
enumeration, yet `send_req` raises the "unknown request" `ValueError`
for it rather than dispatching a POST, because only the profile request
is implemented. -/
theorem C2_counterexample :
    REQ_NAMES.contains REQ_NAME_OFX_ACCTINFO = true ∧
    send_req clientSgml REQ_NAME_OFX_ACCTINFO
        (mkOFXServerInstance "https://ofx.example" none none) dtSample uidSample
      = .error (.valueError "Unknown request name: OFX ACCTINFO") :=
  ⟨rfl, rfl⟩

/-- C2 (amended): `send_req` dispatches only the profile request — with
the server's URL, TLS verification, and the POST method bound to it in
`REQ_METHODS` — and raises `ValueError('Unknown request name: ...')`
for every other request name, including the other names of the
supported enumeration such as `OFX ACCTINFO`. -/
theorem C2_send_req_dispatch (c : OFXTestClient) (si : OFXServerInstance)
    (dt uidv req_name : String) :
    (req_name = REQ_NAME_OFX_PROFILE →
      (c.content_type = "text/sgml" ∨ c.content_type = "text/xml") →
      ∃ payload, send_req c req_name si dt uidv =
        .ok { url := si.ofxurl, tlsverify := true, body := payload, method := "POST" }) ∧
    (req_name ≠ REQ_NAME_OFX_PROFILE →
      send_req c req_name si dt uidv =
        .error (.valueError ("Unknown request name: " ++ req_name))) := by
  constructor
  · intro h hct
    subst h
    rcases hct with h | h
    · refine ⟨c.ofxheader ++ "\n" ++
        pyFormatStr [("signonmsg",
          pyFormatStr [("dt", dt),
            ("fi", pyFormatStr [("fid", si.fid), ("org", si.org)] OFX_FI_FMT_V1)]
            OFX_SIGNON_FMT_V1), ("uid", uidv)] OFX_PROFILE_FMT_V1, ?_⟩
      simp only [send_req, get_profile_payload, get_signonmsg_anonymous_payload, h,
        REQ_METHODS, dictGet, REQ_NAME_OFX_PROFILE, REQ_NAME_GET_ROOT,
        REQ_NAME_GET_OFX, REQ_NAME_POST_OFX, REQ_NAME_OFX_EMPTY]
      rfl
    · refine ⟨c.ofxheader ++ "\n" ++
        pyFormatStr [("signonmsg",
          pyFormatStr [("dt", dt),
            ("fi", pyFormatStr [("fid", si.fid), ("org", si.org)] OFX_FI_FMT_V2)]
            OFX_SIGNON_FMT_V2), ("uid", uidv)] OFX_PROFILE_FMT_V2, ?_⟩
      simp only [send_req, get_profile_payload, get_signonmsg_anonymous_payload, h,
        REQ_METHODS, dictGet, REQ_NAME_OFX_PROFILE, REQ_NAME_GET_ROOT,
        REQ_NAME_GET_OFX, REQ_NAME_POST_OFX, REQ_NAME_OFX_EMPTY]
      rfl
  · intro h
    simp [send_req, h]

/-- C2 witness: the dispatch theorem applied to the profile request and
to the (supported but unimplemented) empty-body request. -/
theorem C2_send_req_dispatch_witness :
    (∃ payload, send_req clientSgml REQ_NAME_OFX_PROFILE
        (mkOFXServerInstance "https://ofx.example" none none) dtSample uidSample
      = .ok { url := "https://ofx.example", tlsverify := true,
              body := payload, method := "POST" }) ∧
    send_req clientSgml REQ_NAME_OFX_EMPTY
        (mkOFXServerInstance "https://ofx.example" none none) dtSample uidSample
      = .error (.valueError ("Unknown request name: " ++ REQ_NAME_OFX_EMPTY)) :=
  ⟨(C2_send_req_dispatch clientSgml
      (mkOFXServerInstance "https://ofx.example" none none) dtSample uidSample
      REQ_NAME_OFX_PROFILE).1 rfl (Or.inl rfl),
   (C2_send_req_dispatch clientSgml
      (mkOFXServerInstance "https://ofx.example" none none) dtSample uidSample
      REQ_NAME_OFX_EMPTY).2 (by decide)⟩

/-! ### Claim C3 -/

/-- C3: on a read timeout `call_url_cached` does not return
`(None, False)`: the handler's condition `if wait > 0:` (source line
217) evaluates the bare name `wait`, which is bound neither in the
function's local scope nor at module level (the attribute is
`self.wait`), so the call raises `NameError` for every configured wait
value — the claim's sleep-then-return behavior never happens. -/
theorem C3_read_timeout_raises (c : OFXTestClient) (cache : Cache)
    (url : String) (tv : Bool) (body method : String)
    (hm : method = "GET" ∨ method = "POST")
    (hc : cacheLookup cache url = none) :
    (call_url_cached c cache url tv body method .readTimeout).out =
      .error (.nameError "name 'wait' is not defined") := by
  rcases hm with h | h <;> subst h <;>
    simp [call_url_cached, hc, resolveName, call_url_cached_local_names,
      testofx_module_names]

/-- C3 witness: a concrete read-timeout call (client wait = 0, empty
cache) raises the `NameError`. -/
theorem C3_read_timeout_raises_witness :
    (call_url_cached clientSgml [] "https://ofx.example" true "" "POST"
        .readTimeout).out = .error (.nameError "name 'wait' is not defined") :=
  C3_read_timeout_raises clientSgml [] "https://ofx.example" true "" "POST"
    (Or.inr rfl) rfl

/-! ### Claim C8 -/

/-- C8 counterexample: with `use_cache` disabled, a successful response
is not cached, so a second call to the same URL issues another network
request (`networkIssued = true`) and reports `wasCached = false` —
against the claim that any produced result prevents re-issue. -/
theorem C8_counterexample :
    (mkOFXTestClient 0 false false "102").map (fun c =>
      let r1 := call_url_cached c [] "https://ofx.example" true "" "POST" (.success 7)
      let r2 := call_url_cached c r1.cache "https://ofx.example" true "" "POST" (.success 8)
      (r1.out, r1.networkIssued, r2.out, r2.networkIssued))
    = .ok (.ok (some 7, false), true, .ok (some 8, false), true) := rfl

/-- C8 (amended): a cache hit (any previously cached entry, including a
cached connection failure) is returned with `wasCached = true` and no
network request; a connection failure is always cached as an explicit
"no result", so the follow-up call to the same URL does not re-issue;
and when `use_cache` is enabled a successful response is cached, so the
follow-up call returns it with `wasCached = true` and no network
request.  (With `use_cache` disabled a success is not cached and a
later call re-issues — see the counterexample.) -/
theorem C8_cache_discipline (c : OFXTestClient) (cache : Cache) (url : String)
    (tv tv2 : Bool) (body body2 : String) (r : Nat) (v : Option Nat)
    (net2 : NetOutcome) :
    (cacheLookup cache url = some v →
      call_url_cached c cache url tv body "POST" net2 =
        { out := .ok (v, true), cache := cache, networkIssued := false }) ∧
    (cacheLookup cache url = none →
      (call_url_cached c cache url tv body "POST" .connError).out = .ok (none, false) ∧
      (call_url_cached c cache url tv body "POST" .connError).networkIssued = true ∧
      call_url_cached c (call_url_cached c cache url tv body "POST" .connError).cache
          url tv2 body2 "POST" net2 =
        { out := .ok (none, true),
          cache := (call_url_cached c cache url tv body "POST" .connError).cache,
          networkIssued := false }) ∧
    (cacheLookup cache url = none → c.use_cache = true →
      (call_url_cached c cache url tv body "POST" (.success r)).out = .ok (some r, false) ∧
      (call_url_cached c cache url tv body "POST" (.success r)).networkIssued = true ∧
      call_url_cached c (call_url_cached c cache url tv body "POST" (.success r)).cache
          url tv2 body2 "POST" net2 =
        { out := .ok (some r, true),
          cache := (call_url_cached c cache url tv body "POST" (.success r)).cache,
          networkIssued := false }) := by
  refine ⟨?_, ?_, ?_⟩
  · intro h
    simp [call_url_cached, h]
  · intro h
    refine ⟨by simp [call_url_cached, h], by simp [call_url_cached, h], ?_⟩
    simp [call_url_cached, h, cacheLookup_cacheSet_self]
  · intro h hu
    refine ⟨by simp [call_url_cached, h], by simp [call_url_cached, h], ?_⟩
    simp [call_url_cached, h, hu, cacheLookup_cacheSet_self]

/-- C8 witness: the discipline theorem applied to a concrete
connection-failure-then-retry pair on an empty cache. -/
theorem C8_cache_discipline_witness :
    call_url_cached clientSgml
        (call_url_cached clientSgml [] "https://ofx.example" true "" "POST"
          .connError).cache
        "https://ofx.example" true "" "POST" (.success 9) =
      { out := .ok (none, true),
        cache := (call_url_cached clientSgml [] "https://ofx.example" true "" "POST"
          .connError).cache,
        networkIssued := false } :=
  ((C8_cache_discipline clientSgml [] "https://ofx.example" true true "" "" 9 none
      (.success 9)).2.1 rfl).2.2

/-! ### Claim C6 -/

/-- C6 counterexample: for version "203" the rendered header is a
three-line prolog — the `<?OFX ...?>` processing instruction spans the
second and third lines, with `NEWFILEUID="NONE"?>` alone on the third —
not the claimed two-line prolog whose second line is the whole
processing instruction. -/
theorem C6_counterexample :
    (mkOFXTestClient 0 false false "203").map (fun c => pySplitlines c.ofxheader) =
      .ok ["<?xml version=\"1.0\" encoding=\"UTF-8\" standalone=\"no\"?>",
           "<?OFX OFXHEADER=\"200\" VERSION=\"203\" SECURITY=\"NONE\" OLDFILEUID=\"NONE\"",
           "NEWFILEUID=\"NONE\"?>"] ∧
    (mkOFXTestClient 0 false false "203").map (fun c =>
      (pySplitlines c.ofxheader).length) = .ok 3 :=
  ⟨rfl, rfl⟩

/-- C6 (amended): a version starting with '1' renders exactly the fixed
nine-line colon-delimited Gen1 block with a trailing newline, VERSION
substituted and the NONE/USASCII/1252 constants, and sets content type
`text/sgml`; a version starting with '2' renders the XML declaration
line followed by the `<?OFX ...?>` processing instruction carrying
OFXHEADER="200", the substituted VERSION and the NONE constants — but
with the instruction split across two lines (a newline before
`NEWFILEUID="NONE"?>`), so the prolog is three lines — and sets content
type `text/xml`. -/
theorem C6_rendered_headers (version : String) (w : Int) (u o : Bool)
    (c : Char) (rest : List Char) (h : version.data = c :: rest) :
    (c = '1' → mkOFXTestClient w u o version =
      .ok { wait := w, use_cache := u, output := o, version := version,
            ofxheader := "OFXHEADER:100\nDATA:OFXSGML\nVERSION:" ++
              (version ++ "\nSECURITY:NONE\nENCODING:USASCII\nCHARSET:1252\nCOMPRESSION:NONE\nOLDFILEUID:NONE\nNEWFILEUID:NONE\n"),
            content_type := "text/sgml" }) ∧
    (c = '2' → mkOFXTestClient w u o version =
      .ok { wait := w, use_cache := u, output := o, version := version,
            ofxheader := "<?xml version=\"1.0\" encoding=\"UTF-8\" standalone=\"no\"?>\n<?OFX OFXHEADER=\"200\" VERSION=\"" ++
              (version ++ "\" SECURITY=\"NONE\" OLDFILEUID=\"NONE\"\nNEWFILEUID=\"NONE\"?>\n"),
            content_type := "text/xml" }) := by
  constructor
  · intro hc
    subst hc
    simp [mkOFXTestClient, h, OFX_HEADER_100_format]
  · intro hc
    subst hc
    simp [mkOFXTestClient, h, OFX_HEADER_200_format]

/-- C6 witness: the amended rendering theorem applied to the concrete
versions "102" and "203". -/
theorem C6_rendered_headers_witness :
    mkOFXTestClient 0 false false "102" =
      .ok { wait := 0, use_cache := false, output := false, version := "102",
            ofxheader := "OFXHEADER:100\nDATA:OFXSGML\nVERSION:" ++
              ("102" ++ "\nSECURITY:NONE\nENCODING:USASCII\nCHARSET:1252\nCOMPRESSION:NONE\nOLDFILEUID:NONE\nNEWFILEUID:NONE\n"),
            content_type := "text/sgml" } ∧
    mkOFXTestClient 0 false false "203" =
      .ok { wait := 0, use_cache := false, output := false, version := "203",
            ofxheader := "<?xml version=\"1.0\" encoding=\"UTF-8\" standalone=\"no\"?>\n<?OFX OFXHEADER=\"200\" VERSION=\"" ++
              ("203" ++ "\" SECURITY=\"NONE\" OLDFILEUID=\"NONE\"\nNEWFILEUID=\"NONE\"?>\n"),
            content_type := "text/xml" } :=
  ⟨(C6_rendered_headers "102" 0 false false '1' ['0', '2'] rfl).1 rfl,
   (C6_rendered_headers "203" 0 false false '2' ['0', '3'] rfl).2 rfl⟩

/-! ### Claim C7 -/

/-- Appending the empty string on the right is the identity. -/
theorem str_append_empty (s : String) : s ++ "" = s := by
  apply String.ext
  simp [String.data_append]

/-- Formatting the Gen1 FI template inserts org and fid between its
literal pieces. -/
theorem OFX_FI_FMT_V1_format (fid org : String) :
    pyFormatStr [("fid", fid), ("org", org)] OFX_FI_FMT_V1 =
    "<FI>\n<ORG>" ++ org ++ "\n<FID>" ++ fid ++ "\n</FI>\n" := by
  have h : pyFormatStr [("fid", fid), ("org", org)] OFX_FI_FMT_V1 =
      String.mk ("<FI>\n<ORG>".data ++ (org.data ++ ("\n<FID>".data ++
        (fid.data ++ "\n</FI>\n".data)))) := rfl
  rw [h]
  apply String.ext
  simp [String.data_append]

/-- Formatting the Gen2 FI template inserts org and fid between its
literal pieces (with closing tags). -/
theorem OFX_FI_FMT_V2_format (fid org : String) :
    pyFormatStr [("fid", fid), ("org", org)] OFX_FI_FMT_V2 =
    "<FI>\n<ORG>" ++ org ++ "</ORG>\n<FID>" ++ fid ++ "</FID>\n</FI>\n" := by
  have h : pyFormatStr [("fid", fid), ("org", org)] OFX_FI_FMT_V2 =
      String.mk ("<FI>\n<ORG>".data ++ (org.data ++ ("</ORG>\n<FID>".data ++
        (fid.data ++ "</FID>\n</FI>\n".data)))) := rfl
  rw [h]
  apply String.ext
  simp [String.data_append]

/-- Formatting the Gen1 signon template inserts the timestamp and the FI
fragment between its literal pieces; the FI fragment lands immediately
before `<APPID>`. -/
theorem OFX_SIGNON_FMT_V1_format (dt fi : String) :
    pyFormatStr [("dt", dt), ("fi", fi)] OFX_SIGNON_FMT_V1 =
    "<SIGNONMSGSRQV1>\n<SONRQ>\n<DTCLIENT>" ++ dt ++
      "\n<USERID>anonymous00000000000000000000000\n<USERPASS>anonymous00000000000000000000000\n<GENUSERKEY>N\n<LANGUAGE>ENG\n" ++
      fi ++ "<APPID>QWIN\n<APPVER>2700\n</SONRQ>\n</SIGNONMSGSRQV1>" := by
  have h : pyFormatStr [("dt", dt), ("fi", fi)] OFX_SIGNON_FMT_V1 =
      String.mk ("<SIGNONMSGSRQV1>\n<SONRQ>\n<DTCLIENT>".data ++ (dt.data ++
        ("\n<USERID>anonymous00000000000000000000000\n<USERPASS>anonymous00000000000000000000000\n<GENUSERKEY>N\n<LANGUAGE>ENG\n".data ++
        (fi.data ++ "<APPID>QWIN\n<APPVER>2700\n</SONRQ>\n</SIGNONMSGSRQV1>".data)))) := rfl
  rw [h]
  apply String.ext
  simp [String.data_append]

/-- Formatting the Gen2 signon template inserts the timestamp and the FI
fragment between its literal pieces; the FI fragment lands immediately
before `<APPID>`. -/
theorem OFX_SIGNON_FMT_V2_format (dt fi : String) :
    pyFormatStr [("dt", dt), ("fi", fi)] OFX_SIGNON_FMT_V2 =
    "<SIGNONMSGSRQV1>\n<SONRQ>\n<DTCLIENT>" ++ dt ++
      "</DTCLIENT>\n<USERID>anonymous00000000000000000000000</USERID>\n<USERPASS>anonymous00000000000000000000000</USERPASS>\n<GENUSERKEY>N</GENUSERKEY>\n<LANGUAGE>ENG</LANGUAGE>\n" ++
      fi ++ "<APPID>QWIN</APPID>\n<APPVER>2700</APPVER>\n</SONRQ>\n</SIGNONMSGSRQV1>" := by
  have h : pyFormatStr [("dt", dt), ("fi", fi)] OFX_SIGNON_FMT_V2 =
      String.mk ("<SIGNONMSGSRQV1>\n<SONRQ>\n<DTCLIENT>".data ++ (dt.data ++
        ("</DTCLIENT>\n<USERID>anonymous00000000000000000000000</USERID>\n<USERPASS>anonymous00000000000000000000000</USERPASS>\n<GENUSERKEY>N</GENUSERKEY>\n<LANGUAGE>ENG</LANGUAGE>\n".data ++
        (fi.data ++ "<APPID>QWIN</APPID>\n<APPVER>2700</APPVER>\n</SONRQ>\n</SIGNONMSGSRQV1>".data)))) := rfl
  rw [h]
  apply String.ext
  simp [String.data_append]

/-- C7 counterexample: a supplied descriptor whose FID and ORG are both
empty still yields an `<FI>` block in the signon fragment, so the FI
block is not present "exactly when" non-empty FID/ORG are supplied. -/
theorem C7_counterexample :
    (mkOFXServerInstance "https://ofx.example" (some "") (some "")).fid = "" ∧
    (mkOFXServerInstance "https://ofx.example" (some "") (some "")).org = "" ∧
    (get_signonmsg_anonymous_payload "text/sgml"
        (some (mkOFXServerInstance "https://ofx.example" (some "") (some "")))
        dtSample).map (fun s => strContains s "<FI>") = .ok true :=
  ⟨rfl, rfl, rfl⟩

/-- C7 (amended): the signon fragment contains the `<FI>` block — placed
immediately before `<APPID>` and naming ORG then FID — exactly when a
server descriptor is supplied (regardless of whether its FID/ORG are
empty); with no descriptor the fragment is the same text without any FI
block.  This holds for both tag styles. -/
theorem C7_fi_block (s : OFXServerInstance) (dt : String) :
    get_signonmsg_anonymous_payload "text/sgml" none dt =
      .ok ("<SIGNONMSGSRQV1>\n<SONRQ>\n<DTCLIENT>" ++ dt ++
        "\n<USERID>anonymous00000000000000000000000\n<USERPASS>anonymous00000000000000000000000\n<GENUSERKEY>N\n<LANGUAGE>ENG\n" ++
        "<APPID>QWIN\n<APPVER>2700\n</SONRQ>\n</SIGNONMSGSRQV1>") ∧
    get_signonmsg_anonymous_payload "text/sgml" (some s) dt =
      .ok ("<SIGNONMSGSRQV1>\n<SONRQ>\n<DTCLIENT>" ++ dt ++
        "\n<USERID>anonymous00000000000000000000000\n<USERPASS>anonymous00000000000000000000000\n<GENUSERKEY>N\n<LANGUAGE>ENG\n" ++
        ("<FI>\n<ORG>" ++ s.org ++ "\n<FID>" ++ s.fid ++ "\n</FI>\n") ++
        "<APPID>QWIN\n<APPVER>2700\n</SONRQ>\n</SIGNONMSGSRQV1>") ∧
    get_signonmsg_anonymous_payload "text/xml" none dt =
      .ok ("<SIGNONMSGSRQV1>\n<SONRQ>\n<DTCLIENT>" ++ dt ++
        "</DTCLIENT>\n<USERID>anonymous00000000000000000000000</USERID>\n<USERPASS>anonymous00000000000000000000000</USERPASS>\n<GENUSERKEY>N</GENUSERKEY>\n<LANGUAGE>ENG</LANGUAGE>\n" ++
        "<APPID>QWIN</APPID>\n<APPVER>2700</APPVER>\n</SONRQ>\n</SIGNONMSGSRQV1>") ∧
    get_signonmsg_anonymous_payload "text/xml" (some s) dt =
      .ok ("<SIGNONMSGSRQV1>\n<SONRQ>\n<DTCLIENT>" ++ dt ++
        "</DTCLIENT>\n<USERID>anonymous00000000000000000000000</USERID>\n<USERPASS>anonymous00000000000000000000000</USERPASS>\n<GENUSERKEY>N</GENUSERKEY>\n<LANGUAGE>ENG</LANGUAGE>\n" ++
        ("<FI>\n<ORG>" ++ s.org ++ "</ORG>\n<FID>" ++ s.fid ++ "</FID>\n</FI>\n") ++
        "<APPID>QWIN</APPID>\n<APPVER>2700</APPVER>\n</SONRQ>\n</SIGNONMSGSRQV1>") := by
  refine ⟨?_, ?_, ?_, ?_⟩
  · have e : get_signonmsg_anonymous_payload "text/sgml" none dt =
        .ok (pyFormatStr [("dt", dt), ("fi", "")] OFX_SIGNON_FMT_V1) := rfl
    rw [e, OFX_SIGNON_FMT_V1_format dt "", str_append_empty]
  · have e : get_signonmsg_anonymous_payload "text/sgml" (some s) dt =
        .ok (pyFormatStr [("dt", dt),
          ("fi", pyFormatStr [("fid", s.fid), ("org", s.org)] OFX_FI_FMT_V1)]
          OFX_SIGNON_FMT_V1) := rfl
    rw [e, OFX_SIGNON_FMT_V1_format, OFX_FI_FMT_V1_format]
  · have e : get_signonmsg_anonymous_payload "text/xml" none dt =
        .ok (pyFormatStr [("dt", dt), ("fi", "")] OFX_SIGNON_FMT_V2) := rfl
    rw [e, OFX_SIGNON_FMT_V2_format dt "", str_append_empty]
  · have e : get_signonmsg_anonymous_payload "text/xml" (some s) dt =
        .ok (pyFormatStr [("dt", dt),
          ("fi", pyFormatStr [("fid", s.fid), ("org", s.org)] OFX_FI_FMT_V2)]
          OFX_SIGNON_FMT_V2) := rfl
    rw [e, OFX_SIGNON_FMT_V2_format, OFX_FI_FMT_V2_format]

end Testofx
